import Mathlib

/-
Verification of the record-fusion and query-filter engine of the
masiv2025 Calgary 3D city dashboard, together with its provided
React client (map/src/App.js, map/src/services/api.js,
map/src/components/QueryPanel.js, map/src/components/ThreeViewer.js).

The backend Python sources (server.py, data_fetcher.py, llm_processor.py)
are not part of the repository snapshot; where a property depends on them,
the corresponding definition is modelled from the specification text and
its doc comment says so explicitly.  All client-side definitions are
direct shallow embeddings of the JavaScript source.  JavaScript numbers
are modelled as rationals; fallible paths are modelled with Option and
Except.
-/

attribute [local semireducible] Rat.add Rat.sub Rat.mul Rat.inv

namespace Masiv

/-! ## Character and string helpers

JavaScript and JSON work on strings; the embedding works on the
underlying character lists so that every definition evaluates inside the
kernel.  Special characters are written by code point to keep the file
free of quote and brace literals. -/

def lbraceChar : Char := Char.ofNat 123

def rbraceChar : Char := Char.ofNat 125

def dquoteChar : Char := Char.ofNat 34

def bslashChar : Char := Char.ofNat 92

def colonChar : Char := Char.ofNat 58

def commaChar : Char := Char.ofNat 44

def isWsChar (c : Char) : Bool :=
  c.toNat = 32 || c.toNat = 9 || c.toNat = 10 || c.toNat = 13

/-- Lower-case a single ASCII character, as String.prototype.toLowerCase
does on the ASCII range used by the zoning codes. -/
def lowerChar (c : Char) : Char :=
  if 65 ≤ c.toNat ∧ c.toNat ≤ 90 then Char.ofNat (c.toNat + 32) else c

def lowerChars (l : List Char) : List Char := l.map lowerChar

def isPrefixOfB : List Char → List Char → Bool
  | [], _ => true
  | _ :: _, [] => false
  | a :: as, b :: bs => a == b && isPrefixOfB as bs

def infixOfB (needle hay : List Char) : Bool :=
  match hay with
  | [] => needle.isEmpty
  | _ :: t => isPrefixOfB needle hay || infixOfB needle t

/-- Case-insensitive substring test: does hay contain needle ignoring
ASCII case. -/
def containsCI (hay needle : String) : Bool :=
  infixOfB (lowerChars needle.toList) (lowerChars hay.toList)

def digitsVal (l : List Char) : Nat :=
  l.foldl (fun n c => n * 10 + (c.toNat - 48)) 0

/-- Parse a non-empty all-digit string as a number; anything else is
rejected (fail-closed numeric coercion). -/
def strToNatQ (s : String) : Option ℚ :=
  let l := s.toList
  if l ≠ [] ∧ l.all Char.isDigit then some ((digitsVal l : Nat) : ℚ) else none

def trimChars (l : List Char) : List Char :=
  ((l.dropWhile isWsChar).reverse.dropWhile isWsChar).reverse

/-- String.prototype.trim as used by QueryPanel.handleSubmit. -/
def jsTrim (s : String) : String := String.mk (trimChars s.toList)

/-! ## JSON values

A small JSON value type; the payloads this system exchanges are flat
objects, arrays and scalars. -/

inductive Json where
  | str : String → Json
  | num : ℚ → Json
  | bool : Bool → Json
  | null : Json
  | arr : List Json → Json
  | obj : List (String × Json) → Json

/-! ## Section 3 data model -/

/-- FootprintRecord from dataset A (cchr-krqg): struct_id, polygon ring of
[longitude, latitude] pairs, and the two elevations (possibly missing in
the raw feed). -/
structure FootprintRecord where
  struct_id : String
  polygon : List (ℚ × ℚ)
  roof_elevation : Option ℚ
  ground_elevation : Option ℚ
  deriving DecidableEq, Repr

/-- AssessmentRecord from dataset B (4bsw-nn7w). -/
structure AssessmentRecord where
  address : String
  multipolygon : List (List (ℚ × ℚ))
  assessed_value : ℚ
  land_use_designation : String
  year_of_construction : String
  deriving DecidableEq, Repr

/-- Building: the fused entity consumed by the client.  Field names are
exactly the section 3 names. -/
structure Building where
  id : String
  address : String
  latitude : ℚ
  longitude : ℚ
  height : ℚ
  land_use_designation : String
  assessed_value : ℚ
  year_of_construction : String
  footprint : List (List (ℚ × ℚ))
  deriving DecidableEq, Repr

/-- FilterSpec values are numeric or string, matching the attribute domain. -/
inductive FilterValue where
  | num : ℚ → FilterValue
  | str : String → FilterValue
  deriving DecidableEq, Repr

structure FilterSpec where
  «attribute» : String
  operator : String
  value : FilterValue
  deriving DecidableEq, Repr

inductive ParseError where
  | MalformedJson : ParseError
  | InvalidAttribute : ParseError
  | InvalidOperator : ParseError
  | TypeMismatch : ParseError
  deriving DecidableEq, Repr

def attributeWhitelist : List String :=
  ["height", "land_use_designation", "assessed_value", "address",
   "year_of_construction"]

def operatorWhitelist : List String := [">", "<", "==", "contains"]

def numericAttributes : List String :=
  ["height", "assessed_value", "year_of_construction"]

def stringAttributes : List String :=
  ["address", "land_use_designation", "year_of_construction"]

/-! ## Fusion Engine

Modelled from the spec: backend/data_fetcher.py (combine_building_data,
buildings_intersect, buildings_match_by_proximity, get_all_buildings) is
not under src/; the algorithm below follows section 4.1 of the
specification step by step.  The haversine great-circle metric is a
transcendental function, so the algorithm is parameterized by the metric;
every theorem below holds for an arbitrary metric, in particular for
haversine. -/

def Metric : Type := (ℚ × ℚ) → (ℚ × ℚ) → ℚ

/-- Modelled from the spec: MIN_HEIGHT is a fixed small positive constant
guarding against degenerate and missing elevation data; the spec does not
pin its value, 3 is fixed here and the claims depend only on 0 < MIN_HEIGHT. -/
def MIN_HEIGHT : ℚ := 3

/-- Modelled from the spec: derived height = max(roof_elevation minus
ground_elevation, MIN_HEIGHT); a missing elevation pair falls back to
MIN_HEIGHT. -/
def derivedHeight (f : FootprintRecord) : ℚ :=
  match f.roof_elevation, f.ground_elevation with
  | some r, some g => max (r - g) MIN_HEIGHT
  | _, _ => MIN_HEIGHT

/-- Modelled from the spec: arithmetic-mean centroid of a ring of
[longitude, latitude] vertices. -/
def centroidOf (ring : List (ℚ × ℚ)) : ℚ × ℚ :=
  ((ring.map Prod.fst).sum / ring.length, (ring.map Prod.snd).sum / ring.length)

/-- Even-odd ray-casting test of one polygon edge, used by the primary
containment matching strategy. -/
def edgeCrosses (p a b : ℚ × ℚ) : Bool :=
  (decide (a.2 > p.2) != decide (b.2 > p.2)) &&
    decide (p.1 < (b.1 - a.1) * (p.2 - a.2) / (b.2 - a.2) + a.1)

def ringEdges (ring : List (ℚ × ℚ)) : List ((ℚ × ℚ) × (ℚ × ℚ)) :=
  match ring with
  | [] => []
  | v :: _ => ring.zip (ring.tail ++ [v])

/-- Modelled from the spec: point-in-polygon containment (even-odd rule)
for the primary matching strategy. -/
def containsPoint (ring : List (ℚ × ℚ)) (p : ℚ × ℚ) : Bool :=
  ((ringEdges ring).filter (fun e => edgeCrosses p e.1 e.2)).length % 2 = 1

def availAt (avail : List Bool) (k : Nat) : Bool := avail.getD k false

/-- Does the k-th assessment multipolygon contain the point c. -/
def containsAt (c : ℚ × ℚ) (as : List AssessmentRecord) (k : Nat) : Bool :=
  match as.get? k with
  | some a => a.multipolygon.any (fun ring => containsPoint ring c)
  | none => false

/-- Centroid of an assessment multipolygon: arithmetic mean over all of
its vertices. -/
def assessCentroid (a : AssessmentRecord) : ℚ × ℚ :=
  centroidOf a.multipolygon.flatten

/-- Distance from the footprint centroid c to the k-th assessment
centroid under the metric dist. -/
def distToAssess (dist : Metric) (c : ℚ × ℚ) (as : List AssessmentRecord)
    (k : Nat) : ℚ :=
  match as.get? k with
  | some a => dist c (assessCentroid a)
  | none => 0

/-- Indices of still-available assessment records whose multipolygon
contains the footprint centroid (primary containment strategy). -/
def containCandidates (c : ℚ × ℚ) (as : List AssessmentRecord)
    (avail : List Bool) : List Nat :=
  (List.range as.length).filter (fun k => availAt avail k && containsAt c as k)

/-- Indices of still-available assessment records within the proximity
threshold (fallback strategy). -/
def proxCandidates (dist : Metric) (thr : ℚ) (c : ℚ × ℚ)
    (as : List AssessmentRecord) (avail : List Bool) : List Nat :=
  (List.range as.length).filter
    (fun k => availAt avail k && decide (distToAssess dist c as k ≤ thr))

/-- Modelled from the spec: minimum-distance selection with ties broken by
lowest insertion order; on an index list in ascending order this keeps the
earliest index attaining the minimum. -/
def selectNearest (d : Nat → ℚ) : List Nat → Option Nat
  | [] => none
  | i :: rest =>
    match selectNearest d rest with
    | none => some i
    | some j => if d j < d i then some j else some i

/-- Modelled from the spec, section 4.1 steps 2 and 3: exactly one
containment match wins; otherwise fall back to nearest-centroid proximity
within the threshold, ties broken by lowest assessment insertion order. -/
def matchFor (dist : Metric) (thr : ℚ) (f : FootprintRecord)
    (as : List AssessmentRecord) (avail : List Bool) : Option Nat :=
  let c := centroidOf f.polygon
  let cc := containCandidates c as avail
  if cc.length = 1 then cc.head?
  else selectNearest (distToAssess dist c as) (proxCandidates dist thr c as avail)

/-- Modelled from the spec, section 4.1 steps 5 and 6: a geometry-valid
footprint always becomes a Building; assessment-derived fields of an
unmatched footprint are explicit empty and zero defaults. -/
def mkBuilding (f : FootprintRecord) (oa : Option AssessmentRecord) : Building :=
  let c := centroidOf f.polygon
  { id := f.struct_id
    address := (oa.map AssessmentRecord.address).getD ""
    latitude := c.2
    longitude := c.1
    height := derivedHeight f
    land_use_designation := (oa.map AssessmentRecord.land_use_designation).getD ""
    assessed_value := (oa.map AssessmentRecord.assessed_value).getD 0
    year_of_construction := (oa.map AssessmentRecord.year_of_construction).getD ""
    footprint := [f.polygon] }

/-- A polygon with fewer than 3 vertices is dropped before matching. -/
def validGeometry (f : FootprintRecord) : Bool := 3 ≤ f.polygon.length

def consume (i : Nat) (avail : List Bool) : List Bool := avail.set i false

/-- Modelled from the spec: greedy first-come matching over the footprint
sequence, each assessment consumed by at most one footprint. -/
def fuseGo (dist : Metric) (thr : ℚ) (as : List AssessmentRecord) :
    List FootprintRecord → List Bool → List Building
  | [], _ => []
  | f :: rest, avail =>
    if validGeometry f then
      match matchFor dist thr f as avail with
      | some i => mkBuilding f (as.get? i) :: fuseGo dist thr as rest (consume i avail)
      | none => mkBuilding f none :: fuseGo dist thr as rest avail
    else fuseGo dist thr as rest avail

/-- Modelled from the spec: fuse(footprints, assessments) -> seq<Building>. -/
def fuse (dist : Metric) (thr : ℚ) (fps : List FootprintRecord)
    (as : List AssessmentRecord) : List Building :=
  fuseGo dist thr as fps (List.replicate as.length true)

/-- No assessment record is a candidate for footprint f: none contains the
centroid and all lie beyond the proximity threshold. -/
def noCandidate (dist : Metric) (thr : ℚ) (f : FootprintRecord)
    (as : List AssessmentRecord) : Prop :=
  ∀ k ∈ List.range as.length,
    containsAt (centroidOf f.polygon) as k = false ∧
      thr < distToAssess dist (centroidOf f.polygon) as k

instance (dist : Metric) (thr : ℚ) (f : FootprintRecord)
    (as : List AssessmentRecord) : Decidable (noCandidate dist thr f as) :=
  List.decidableBAll _ _

/-! ## Filter Engine: completion parsing

Modelled from the spec: backend/llm_processor.py (process_query,
parse_llm_response, extract_filter) is not under src/; the pipeline below
follows section 4.2 part B: locate the first balanced JSON object
substring in the raw completion, decode it, validate the attribute and
operator whitelists, and coerce the value, with the four structured
ParseError outcomes and no default filter. -/

/-- Collect the first balanced JSON object from a character stream whose
head is an opening brace, respecting string quoting and escapes.  Fuel is
the stream length; every step consumes one character. -/
def takeBalanced : Nat → List Char → Nat → Bool → Bool → List Char →
    Option (List Char)
  | 0, _, _, _, _, _ => none
  | _ + 1, [], _, _, _, _ => none
  | fuel + 1, c :: rest, depth, inStr, esc, acc =>
    if inStr then
      if esc then takeBalanced fuel rest depth true false (c :: acc)
      else if c = bslashChar then takeBalanced fuel rest depth true true (c :: acc)
      else if c = dquoteChar then takeBalanced fuel rest depth false false (c :: acc)
      else takeBalanced fuel rest depth true false (c :: acc)
    else if c = dquoteChar then takeBalanced fuel rest depth true false (c :: acc)
    else if c = lbraceChar then takeBalanced fuel rest (depth + 1) false false (c :: acc)
    else if c = rbraceChar then
      if depth = 1 then some (c :: acc).reverse
      else takeBalanced fuel rest (depth - 1) false false (c :: acc)
    else takeBalanced fuel rest depth false false (c :: acc)

/-- Modelled from the spec: tolerant extraction of the first balanced JSON
object substring from prose surrounding it. -/
def extractFirstJsonObject (raw : String) : Option String :=
  let rest := raw.toList.dropWhile (fun c => c != lbraceChar)
  match rest with
  | [] => none
  | _ => (takeBalanced rest.length rest 0 false false []).map String.mk

def skipWs : List Char → List Char
  | [] => []
  | c :: cs => if isWsChar c then skipWs cs else c :: cs

def unescapeChar (d : Char) : Char :=
  if d.toNat = 110 then Char.ofNat 10
  else if d.toNat = 116 then Char.ofNat 9
  else if d.toNat = 114 then Char.ofNat 13
  else d

/-- Read a JSON string body after its opening quote; returns the content
and the stream after the closing quote. -/
def takeStringBody : Nat → List Char → Option (List Char × List Char)
  | 0, _ => none
  | _ + 1, [] => none
  | fuel + 1, c :: cs =>
    if c = dquoteChar then some ([], cs)
    else if c = bslashChar then
      match cs with
      | [] => none
      | d :: ds => (takeStringBody fuel ds).map (fun p => (unescapeChar d :: p.1, p.2))
    else (takeStringBody fuel cs).map (fun p => (c :: p.1, p.2))

/-- Read a JSON number (optional minus, digits, optional fraction). -/
def takeNumber (cs : List Char) : Option (ℚ × List Char) :=
  let neg : Bool := match cs with
    | c :: _ => c.toNat = 45
    | [] => false
  let cs1 := if neg then cs.tail else cs
  let ds := cs1.takeWhile Char.isDigit
  let cs2 := cs1.dropWhile Char.isDigit
  if ds.isEmpty then none
  else
    let intPart : ℚ := ((digitsVal ds : Nat) : ℚ)
    match cs2 with
    | c :: rest =>
      if c.toNat = 46 then
        let fs := rest.takeWhile Char.isDigit
        let cs3 := rest.dropWhile Char.isDigit
        if fs.isEmpty then none
        else
          let v : ℚ := intPart + ((digitsVal fs : Nat) : ℚ) / ((10 : ℚ) ^ fs.length)
          some (if neg then -v else v, cs3)
      else some (if neg then -intPart else intPart, cs2)
    | [] => some (if neg then -intPart else intPart, [])

def trueChars : List Char := ("true").toList

def falseChars : List Char := ("false").toList

def nullChars : List Char := ("null").toList

/-- Read one scalar JSON value.  The documented completions carry flat
objects of scalar values, which is all the FilterSpec grammar needs. -/
def takeValue (cs : List Char) : Option (Json × List Char) :=
  let cs := skipWs cs
  match cs with
  | [] => none
  | c :: rest =>
    if c = dquoteChar then
      (takeStringBody rest.length rest).map (fun p => (Json.str (String.mk p.1), p.2))
    else if c.isDigit || c.toNat = 45 then
      (takeNumber cs).map (fun p => (Json.num p.1, p.2))
    else if cs.take 4 == trueChars then some (Json.bool true, cs.drop 4)
    else if cs.take 5 == falseChars then some (Json.bool false, cs.drop 5)
    else if cs.take 4 == nullChars then some (Json.null, cs.drop 4)
    else none

/-- Read the members of a flat JSON object after its opening brace,
consuming the closing brace. -/
def takeMembers : Nat → List Char → Option (List (String × Json) × List Char)
  | 0, _ => none
  | fuel + 1, cs =>
    match skipWs cs with
    | [] => none
    | c :: rest =>
      if c = rbraceChar then some ([], rest)
      else if c = dquoteChar then
        match takeStringBody rest.length rest with
        | none => none
        | some (key, afterKey) =>
          match skipWs afterKey with
          | [] => none
          | d :: rest2 =>
            if d = colonChar then
              match takeValue rest2 with
              | none => none
              | some (v, afterVal) =>
                match skipWs afterVal with
                | [] => none
                | e :: rest3 =>
                  if e = commaChar then
                    match takeMembers fuel rest3 with
                    | some (fields, rest4) => some ((String.mk key, v) :: fields, rest4)
                    | none => none
                  else if e = rbraceChar then some ([(String.mk key, v)], rest3)
                  else none
            else none
      else none

/-- Modelled from the spec: decode the extracted balanced substring as a
flat JSON object. -/
def decodeFlatObject (s : String) : Option (List (String × Json)) :=
  match skipWs s.toList with
  | [] => none
  | c :: rest =>
    if c = lbraceChar then
      match takeMembers (rest.length + 1) rest with
      | some (fields, rest2) => if (skipWs rest2).isEmpty then some fields else none
      | none => none
    else none

def jsonString : Json → Option String
  | .str s => some s
  | _ => none

/-- Modelled from the spec: coerce the value to the expected type of the
attribute under the given operator: numeric for height, assessed_value and
year_of_construction comparisons, string otherwise; contains on a numeric
attribute and a numeric operator on a string attribute are rejected here
at validation time. -/
def coerceValue (attr op : String) (v : Json) : Option FilterValue :=
  if op = "contains" then
    if stringAttributes.contains attr then
      match v with
      | .str s => some (.str s)
      | _ => none
    else none
  else if numericAttributes.contains attr then
    match v with
    | .num q => some (.num q)
    | .str s => (strToNatQ s).map .num
    | _ => none
  else
    if op = "==" then
      match v with
      | .str s => some (.str s)
      | _ => none
    else none

/-- Modelled from the spec: whitelist validation and value coercion of a
decoded completion object, attribute first, then operator, then value. -/
def validateFilter (av ov v : Json) : Except ParseError FilterSpec :=
  match jsonString av with
  | none => .error .InvalidAttribute
  | some a =>
    if attributeWhitelist.contains a then
      match jsonString ov with
      | none => .error .InvalidOperator
      | some op =>
        if operatorWhitelist.contains op then
          match coerceValue a op v with
          | some fv => .ok ⟨a, op, fv⟩
          | none => .error .TypeMismatch
        else .error .InvalidOperator
    else .error .InvalidAttribute

/-- Modelled from the spec: parseCompletion(raw) -> Result<FilterSpec,
ParseError>. -/
def parseCompletion (raw : String) : Except ParseError FilterSpec :=
  match extractFirstJsonObject raw with
  | none => .error .MalformedJson
  | some s =>
    match decodeFlatObject s with
    | none => .error .MalformedJson
    | some fields =>
      match fields.lookup ("attribute"), fields.lookup ("operator"),
          fields.lookup ("value") with
      | some av, some ov, some v => validateFilter av ov v
      | _, _, _ => .error .MalformedJson

/-! ## Filter Engine: evaluation -/

/-- Numeric view of the named attribute of a building; a non-numeric
year_of_construction yields none so numeric operators fail closed. -/
def numericValueOf (b : Building) (attr : String) : Option ℚ :=
  if attr = "height" then some b.height
  else if attr = "assessed_value" then some b.assessed_value
  else if attr = "year_of_construction" then strToNatQ b.year_of_construction
  else none

/-- String view of the named attribute of a building. -/
def stringValueOf (b : Building) (attr : String) : Option String :=
  if attr = "address" then some b.address
  else if attr = "land_use_designation" then some b.land_use_designation
  else if attr = "year_of_construction" then some b.year_of_construction
  else none

/-- Modelled from the spec, section 4.2 part C operator semantics: strict
numeric comparison failing closed on absent or non-numeric values, exact
equality, case-insensitive substring for contains. -/
def matchesFilter (f : FilterSpec) (b : Building) : Bool :=
  match f.value with
  | .num q =>
    match numericValueOf b f.attribute with
    | none => false
    | some x =>
      if f.operator = ">" then decide (q < x)
      else if f.operator = "<" then decide (x < q)
      else if f.operator = "==" then decide (x = q)
      else false
  | .str s =>
    match stringValueOf b f.attribute with
    | none => false
    | some t =>
      if f.operator = "contains" then containsCI t s
      else if f.operator = "==" then decide (t = s)
      else false

/-- Modelled from the spec: apply(filter, buildings) -> seq<string>,
evaluating the filter against each building in sequence order. -/
def applyFilter (f : FilterSpec) : List Building → List String
  | [] => []
  | b :: rest =>
    if matchesFilter f b then b.id :: applyFilter f rest
    else applyFilter f rest

/-! ## Outward-facing payload serialization

The backend serializers live in server.py, which is not under src/; the
two payload shapes are modelled from the spec, section 6 and section 3,
and are compared against the field names the provided client reads. -/

/-- Modelled from the spec: JSON serialization of a Building with exactly
the section 3 field names. -/
def serializeBuilding (b : Building) : List (String × Json) :=
  [("id", .str b.id),
   ("address", .str b.address),
   ("latitude", .num b.latitude),
   ("longitude", .num b.longitude),
   ("height", .num b.height),
   ("land_use_designation", .str b.land_use_designation),
   ("assessed_value", .num b.assessed_value),
   ("year_of_construction", .str b.year_of_construction),
   ("footprint",
     .arr (b.footprint.map (fun ring =>
       .arr (ring.map (fun c => .arr [.num c.1, .num c.2])))))]

/-- Modelled from the spec: JSON serialization of a per-query result. -/
def serializeQueryResult (ids : List String) (fp : FilterSpec) :
    List (String × Json) :=
  [("matching_ids", .arr (ids.map .str)),
   ("filter_parsed",
     .obj [("attribute", .str fp.attribute), ("operator", .str fp.operator),
           ("value", match fp.value with
                     | .num q => .num q
                     | .str s => .str s)])]

def buildingFieldNames : List String :=
  ["id", "address", "latitude", "longitude", "height",
   "land_use_designation", "assessed_value", "year_of_construction",
   "footprint"]

def queryResultFieldNames : List String := ["matching_ids", "filter_parsed"]

/-- Field names the building-details panel reads, from map/src/App.js
(Address, Height, Zoning, Assessed Value, Year Built rows). -/
def detailsPanelReads : List String :=
  ["address", "height", "land_use_designation", "assessed_value",
   "year_of_construction"]

/-- Field names calculateBounds reads, from
map/src/components/ThreeViewer.js. -/
def calculateBoundsReads : List String := ["latitude", "longitude"]

/-- Top-level field names queryBuildings reads from the query response,
from map/src/services/api.js. -/
def queryBuildingsReads : List String := ["matching_ids", "filter_parsed"]

/-! ## Client embeddings (from src)

Direct shallow embeddings of the JavaScript client.  A fetch call is
modelled by its outcome: either the fetch or body decode threw, or a
response arrived with its ok flag, status and decoded JSON body. -/

/-- Decoded JSON body of a /api/query response, as the fields
queryBuildings reads: data.error, data.matching_ids, data.filter_parsed.
Absent fields are none. -/
structure QueryResponseData where
  error : Option String
  matching_ids : Option (List String)
  filter_parsed : Option Json

/-- Decoded JSON body of a /api/buildings response, as the fields
fetchBuildings reads: data.error and data.data. -/
structure BuildingsResponseData where
  error : Option String
  data : Option (List Building)
  deriving DecidableEq, Repr

/-- Outcome of a fetch call as the client observes it. -/
inductive FetchOutcome (β : Type) where
  | thrown : String → FetchOutcome β
  | got : Bool → Nat → Except String β → FetchOutcome β

/-- JavaScript truthiness of an optional string field: present and
non-empty. -/
def jsTruthy : Option String → Bool
  | none => false
  | some s => s ≠ ""

/-- Result object queryBuildings resolves with, from
map/src/services/api.js. -/
structure QueryResult where
  matching_ids : List String
  filter_parsed : Option Json
  error : Option String

/-- Shallow embedding of queryBuildings (map/src/services/api.js lines
37 to 80): non-ok responses throw into the catch, backend-signalled
errors and thrown exceptions both produce an error result with empty
matching_ids; a successful body yields its ids (defaulting a missing
array to empty) with error null. -/
def queryBuildings : FetchOutcome QueryResponseData → QueryResult
  | .thrown msg => ⟨[], none, some msg⟩
  | .got ok status body =>
    if ok then
      match body with
      | .error msg => ⟨[], none, some msg⟩
      | .ok d =>
        if jsTruthy d.error then ⟨[], none, d.error⟩
        else ⟨d.matching_ids.getD [], d.filter_parsed, none⟩
    else ⟨[], none, some ("HTTP error! status: " ++ toString status)⟩

/-- The call succeeded: a response arrived with ok status, its body
decoded, and the backend did not signal an error. -/
def fetchSucceeded : FetchOutcome QueryResponseData → Bool
  | .thrown _ => false
  | .got ok _ body =>
    ok && (match body with
           | .error _ => false
           | .ok d => !jsTruthy d.error)

/-- Shallow embedding of fetchBuildings (map/src/services/api.js lines
13 to 29): every failure path resolves with the empty array; a success
yields data.data or the empty array. -/
def fetchBuildings : FetchOutcome BuildingsResponseData → List Building
  | .thrown _ => []
  | .got ok _ body =>
    if ok then
      match body with
      | .error _ => []
      | .ok d => if jsTruthy d.error then [] else d.data.getD []
    else []

/-- App component state touched by loadBuildings, from map/src/App.js. -/
structure AppState where
  buildings : List Building
  error : Option String
  loading : Bool
  deriving DecidableEq, Repr

/-- Shallow embedding of App.loadBuildings (map/src/App.js lines 25 to
39): a non-empty fetch result stores the buildings and clears the error;
an empty result sets the error string, leaving buildings as they were. -/
def loadBuildings (o : FetchOutcome BuildingsResponseData) (s : AppState) :
    AppState :=
  let data := fetchBuildings o
  if 0 < data.length then
    { s with buildings := data, error := none, loading := false }
  else
    { s with error := some ("Failed to load buildings"), loading := false }

/-- QueryPanel component state, from map/src/components/QueryPanel.js. -/
structure PanelState where
  query : String
  loading : Bool
  lastResult : Option QueryResult
  error : Option String

/-- Shallow embedding of QueryPanel.handleSubmit: a blank query returns
before calling the backend; an error result records the error and clears
the last result without invoking onQueryResult (second component none);
a success records the result and invokes onQueryResult with the matching
ids. -/
def handleSubmit (s : PanelState) (o : FetchOutcome QueryResponseData) :
    PanelState × Option (List String) :=
  if jsTrim s.query = "" then (s, none)
  else
    let r := queryBuildings o
    match r.error with
    | some e =>
      ({ s with loading := false, error := some e, lastResult := none }, none)
    | none =>
      ({ s with loading := false, error := none, lastResult := some r },
        some r.matching_ids)

/-- Shallow embedding of QueryPanel.handleClear: resets the panel and
invokes onQueryResult with the empty array. -/
def handleClear (s : PanelState) : PanelState × Option (List String) :=
  ({ s with query := "", lastResult := none, error := none }, some [])

/-- Effect of the onQueryResult callback on the highlighted-id state held
by App: invoked with ids it replaces the state, not invoked it leaves the
state unchanged. -/
def appAfterQuery (h : List String) (cb : Option (List String)) : List String :=
  cb.getD h

/-! ## ThreeViewer embeddings (from src) -/

def COLOR_DEFAULT : Nat := 0x6699cc

def COLOR_HIGHLIGHTED : Nat := 0xffaa00

def COLOR_SELECTED : Nat := 0xff0000

def COLOR_DIMMED : Nat := 0x445566

/-- Shallow embedding of the highlight color effect in
map/src/components/ThreeViewer.js lines 240 to 255: selected beats
highlighted beats dimmed beats default. -/
def colorFor (selectedId : Option String) (highlightedIds : List String)
    (buildingId : String) : Nat :=
  if selectedId = some buildingId then COLOR_SELECTED
  else if buildingId ∈ highlightedIds then COLOR_HIGHLIGHTED
  else if 0 < highlightedIds.length then COLOR_DIMMED
  else COLOR_DEFAULT

structure Bounds where
  minLat : ℚ
  maxLat : ℚ
  minLon : ℚ
  maxLon : ℚ
  centerLat : ℚ
  centerLon : ℚ
  deriving DecidableEq, Repr

/-- Shallow embedding of calculateBounds
(map/src/components/ThreeViewer.js lines 25 to 44): zero bounds on an
empty list, otherwise coordinate-wise minima and maxima and their
midpoints.  The Infinity fold seeds of the source are realized by seeding
the folds with the first element. -/
def calculateBounds : List Building → Bounds
  | [] => ⟨0, 0, 0, 0, 0, 0⟩
  | b :: rest =>
    let minLat := rest.foldl (fun m x => min m x.latitude) b.latitude
    let maxLat := rest.foldl (fun m x => max m x.latitude) b.latitude
    let minLon := rest.foldl (fun m x => min m x.longitude) b.longitude
    let maxLon := rest.foldl (fun m x => max m x.longitude) b.longitude
    ⟨minLat, maxLat, minLon, maxLon, (maxLat + minLat) / 2, (maxLon + minLon) / 2⟩

/-! ## Concrete inputs used by witnesses and counterexamples -/

/-- A concrete computable metric (squared euclidean) standing in for the
haversine parameter in concrete evaluations. -/
def exMetric : Metric := fun p q =>
  (p.1 - q.1) * (p.1 - q.1) + (p.2 - q.2) * (p.2 - q.2)

/-- A valid triangular footprint with centroid (1/3, 1/3) and a 15 metre
elevation difference. -/
def exFootprint : FootprintRecord :=
  ⟨"fp1", [(0, 0), (1, 0), (0, 1)], some 20, some 5⟩

/-- Assessment whose multipolygon centroid (7/3, 1/3) lies at squared
distance 4 from the footprint centroid. -/
def exAssessEast : AssessmentRecord :=
  ⟨"2 ST SW", [[(2, 0), (3, 0), (2, 1)]], 100, "CC-X", "1980"⟩

/-- Assessment whose multipolygon centroid (-5/3, 1/3) also lies at
squared distance 4 from the footprint centroid: an exact tie. -/
def exAssessWest : AssessmentRecord :=
  ⟨"5 AV SW", [[(-2, 0), (-1, 0), (-2, 1)]], 200, "RC-G", "1990"⟩

def exBuilding (i : String) (v : ℚ) : Building :=
  ⟨i, "", 0, 0, 10, "", v, "", []⟩

/-- Five buildings of which exactly two have assessed_value above one
million. -/
def exampleBuildings : List Building :=
  [exBuilding ("b1") 500000, exBuilding ("b2") 2000000,
   exBuilding ("b3") 750000, exBuilding ("b4") 3000000,
   exBuilding ("b5") 1000000]

def exampleValueFilter : FilterSpec := ⟨"assessed_value", ">", .num 1000000⟩

/-- The spec test completion with a non-whitelisted attribute. -/
def colorRaw : String :=
  "\x7b\"attribute\":\"color\",\"operator\":\">\",\"value\":1\x7d"

/-- The spec test completion with prose around the JSON object. -/
def proseRaw : String :=
  "Here you go: \x7b\"attribute\":\"height\",\"operator\":\">\",\"value\":100\x7d thanks!"

/-- A fully successful buildings fetch whose payload is the empty list. -/
def emptyOkOutcome : FetchOutcome BuildingsResponseData :=
  .got true 200 (.ok ⟨none, some []⟩)

def initialAppState : AppState := ⟨[], none, true⟩

/-- A panel with a non-blank query. -/
def exPanel : PanelState := ⟨"tallest buildings", false, none, none⟩

/-- A successful query response with zero matching ids. -/
def emptySuccess : FetchOutcome QueryResponseData :=
  .got true 200 (.ok ⟨none, some [], none⟩)

/-! ## Helper lemmas -/

theorem mkBuilding_id (f : FootprintRecord) (oa : Option AssessmentRecord) :
    (mkBuilding f oa).id = f.struct_id := rfl

theorem mkBuilding_height (f : FootprintRecord) (oa : Option AssessmentRecord) :
    (mkBuilding f oa).height = derivedHeight f := rfl

theorem selectNearest_cons_ne_none (d : Nat → ℚ) (i : Nat) (rest : List Nat) :
    selectNearest d (i :: rest) ≠ none := by
  simp only [selectNearest]
  cases selectNearest d rest with
  | none => simp
  | some j => by_cases hd : d j < d i <;> simp [hd]

theorem selectNearest_mem (d : Nat → ℚ) :
    ∀ (l : List Nat) (j : Nat), selectNearest d l = some j → j ∈ l := by
  intro l
  induction l with
  | nil => intro j h; simp [selectNearest] at h
  | cons i rest ih =>
    intro j h
    simp only [selectNearest] at h
    cases hr : selectNearest d rest with
    | none =>
      simp only [hr] at h
      injection h with h2
      subst h2
      exact List.mem_cons_self _ _
    | some j2 =>
      simp only [hr] at h
      by_cases hd : d j2 < d i
      · rw [if_pos hd] at h
        injection h with h2
        subst h2
        exact List.mem_cons_of_mem _ (ih _ hr)
      · rw [if_neg hd] at h
        injection h with h2
        subst h2
        exact List.mem_cons_self _ _

theorem selectNearest_min (d : Nat → ℚ) :
    ∀ (l : List Nat) (j : Nat), selectNearest d l = some j →
      ∀ k ∈ l, d j ≤ d k := by
  intro l
  induction l with
  | nil => intro j h; simp [selectNearest] at h
  | cons i rest ih =>
    intro j h k hk
    simp only [selectNearest] at h
    cases hr : selectNearest d rest with
    | none =>
      simp only [hr] at h
      injection h with h2
      subst h2
      have hrest : rest = [] := by
        cases rest with
        | nil => rfl
        | cons a t => exact absurd hr (selectNearest_cons_ne_none d a t)
      subst hrest
      rcases List.mem_singleton.mp hk with rfl
      exact le_refl _
    | some j2 =>
      simp only [hr] at h
      by_cases hd : d j2 < d i
      · rw [if_pos hd] at h
        injection h with h2
        subst h2
        rcases List.mem_cons.mp hk with rfl | hk2
        · exact le_of_lt hd
        · exact ih _ hr k hk2
      · rw [if_neg hd] at h
        injection h with h2
        subst h2
        rcases List.mem_cons.mp hk with rfl | hk2
        · exact le_refl _
        · exact le_trans (not_lt.mp hd) (ih j2 hr k hk2)

theorem selectNearest_least (d : Nat → ℚ) :
    ∀ (l : List Nat) (j : Nat), l.Pairwise (· < ·) → selectNearest d l = some j →
      ∀ k ∈ l, d k = d j → j ≤ k := by
  intro l
  induction l with
  | nil => intro j _ h; simp [selectNearest] at h
  | cons i rest ih =>
    intro j hp h k hk hdk
    rw [List.pairwise_cons] at hp
    obtain ⟨hlt, hp2⟩ := hp
    simp only [selectNearest] at h
    cases hr : selectNearest d rest with
    | none =>
      simp only [hr] at h
      injection h with h2
      subst h2
      have hrest : rest = [] := by
        cases rest with
        | nil => rfl
        | cons a t => exact absurd hr (selectNearest_cons_ne_none d a t)
      subst hrest
      rcases List.mem_singleton.mp hk with rfl
      exact le_refl _
    | some j2 =>
      simp only [hr] at h
      by_cases hd : d j2 < d i
      · rw [if_pos hd] at h
        injection h with h2
        subst h2
        rcases List.mem_cons.mp hk with rfl | hk2
        · rw [hdk] at hd
          exact absurd hd (lt_irrefl _)
        · exact ih _ hp2 hr k hk2 hdk
      · rw [if_neg hd] at h
        injection h with h2
        subst h2
        rcases List.mem_cons.mp hk with rfl | hk2
        · exact le_refl _
        · exact le_of_lt (hlt k hk2)

theorem fuseGo_map_id (dist : Metric) (thr : ℚ) (as : List AssessmentRecord) :
    ∀ (fps : List FootprintRecord) (avail : List Bool),
      (fuseGo dist thr as fps avail).map Building.id =
        (fps.filter (fun f => validGeometry f)).map FootprintRecord.struct_id := by
  intro fps
  induction fps with
  | nil => intro avail; rfl
  | cons f rest ih =>
    intro avail
    by_cases hv : validGeometry f = true
    · cases hm : matchFor dist thr f as avail with
      | some i => simp [fuseGo, hv, hm, List.filter_cons, mkBuilding_id, ih]
      | none => simp [fuseGo, hv, hm, List.filter_cons, mkBuilding_id, ih]
    · simp [fuseGo, hv, List.filter_cons, ih]

theorem mem_fuseGo (dist : Metric) (thr : ℚ) (as : List AssessmentRecord) :
    ∀ (fps : List FootprintRecord) (avail : List Bool) (b : Building),
      b ∈ fuseGo dist thr as fps avail →
      ∃ f oa, f ∈ fps ∧ b = mkBuilding f oa := by
  intro fps
  induction fps with
  | nil => intro avail b h; simp [fuseGo] at h
  | cons f rest ih =>
    intro avail b h
    by_cases hv : validGeometry f = true
    · simp only [fuseGo, if_pos hv] at h
      cases hm : matchFor dist thr f as avail with
      | some i =>
        simp only [hm] at h
        rcases List.mem_cons.mp h with rfl | h2
        · exact ⟨f, as.get? i, List.mem_cons_self _ _, rfl⟩
        · obtain ⟨g, oa, hg, hb⟩ := ih _ b h2
          exact ⟨g, oa, List.mem_cons_of_mem _ hg, hb⟩
      | none =>
        simp only [hm] at h
        rcases List.mem_cons.mp h with rfl | h2
        · exact ⟨f, none, List.mem_cons_self _ _, rfl⟩
        · obtain ⟨g, oa, hg, hb⟩ := ih _ b h2
          exact ⟨g, oa, List.mem_cons_of_mem _ hg, hb⟩
    · simp only [fuseGo, if_neg hv] at h
      obtain ⟨g, oa, hg, hb⟩ := ih _ b h
      exact ⟨g, oa, List.mem_cons_of_mem _ hg, hb⟩

theorem matchFor_none_of_noCandidate (dist : Metric) (thr : ℚ)
    (f : FootprintRecord) (as : List AssessmentRecord)
    (h : noCandidate dist thr f as) (avail : List Bool) :
    matchFor dist thr f as avail = none := by
  have hcc : containCandidates (centroidOf f.polygon) as avail = [] := by
    unfold containCandidates
    rw [List.filter_eq_nil_iff]
    intro k hk
    simp only [Bool.and_eq_true, not_and]
    intro _
    rw [(h k hk).1]
    simp
  have hpx : proxCandidates dist thr (centroidOf f.polygon) as avail = [] := by
    unfold proxCandidates
    rw [List.filter_eq_nil_iff]
    intro k hk
    simp only [Bool.and_eq_true, not_and, decide_eq_true_eq]
    intro _
    exact not_le.mpr (h k hk).2
  simp [matchFor, hcc, hpx, selectNearest]

theorem fuseGo_unmatched (dist : Metric) (thr : ℚ) (as : List AssessmentRecord)
    (f : FootprintRecord) (hv : validGeometry f = true)
    (hnone : ∀ avail, matchFor dist thr f as avail = none) :
    ∀ (fps : List FootprintRecord) (avail : List Bool), f ∈ fps →
      mkBuilding f none ∈ fuseGo dist thr as fps avail := by
  intro fps
  induction fps with
  | nil => intro avail h; exact absurd h (List.not_mem_nil f)
  | cons g rest ih =>
    intro avail hmem
    rcases List.mem_cons.mp hmem with rfl | hmem2
    · simp only [fuseGo, if_pos hv, hnone avail]
      exact List.mem_cons_self _ _
    · by_cases hvg : validGeometry g = true
      · cases hm : matchFor dist thr g as avail with
        | some i =>
          simp only [fuseGo, if_pos hvg, hm]
          exact List.mem_cons_of_mem _ (ih (consume i avail) hmem2)
        | none =>
          simp only [fuseGo, if_pos hvg, hm]
          exact List.mem_cons_of_mem _ (ih avail hmem2)
      · simp only [fuseGo, if_neg hvg]
        exact ih avail hmem2

theorem validateFilter_ok (av ov v : Json) (spec : FilterSpec)
    (h : validateFilter av ov v = .ok spec) :
    attributeWhitelist.contains spec.attribute = true ∧
      operatorWhitelist.contains spec.operator = true := by
  unfold validateFilter at h
  repeat' split at h
  all_goals try exact Except.noConfusion h
  injection h with h2
  subst h2
  exact ⟨by assumption, by assumption⟩

theorem parseCompletion_ok (raw : String) (spec : FilterSpec)
    (h : parseCompletion raw = .ok spec) :
    attributeWhitelist.contains spec.attribute = true ∧
      operatorWhitelist.contains spec.operator = true := by
  unfold parseCompletion at h
  repeat' split at h
  all_goals try exact Except.noConfusion h
  exact validateFilter_ok _ _ _ _ h

theorem foldlMapCongr (g : ℚ → ℚ → ℚ) (f : Building → ℚ) :
    ∀ (l1 l2 : List Building) (a : ℚ), l1.map f = l2.map f →
      l1.foldl (fun m x => g m (f x)) a = l2.foldl (fun m x => g m (f x)) a := by
  intro l1
  induction l1 with
  | nil =>
    intro l2 a h
    cases l2 with
    | nil => rfl
    | cons b t => simp at h
  | cons b t ih =>
    intro l2 a h
    cases l2 with
    | nil => simp at h
    | cons b2 t2 =>
      simp only [List.map_cons, List.cons.injEq] at h
      obtain ⟨hb, ht⟩ := h
      simp only [List.foldl_cons]
      rw [hb]
      exact ih t2 (g a (f b2)) ht

/-! ## Claim theorems -/

/-- Counterexample to claim C1 as stated: a fully successful buildings
fetch whose payload is the empty list is mapped by App.loadBuildings to
the failure state (error set to the string used for load failures), and
the resulting application state is identical to the one produced by a
hard network error, so the provided client does not keep a zero-building
result distinct from a hard error. -/
theorem loadBuildings_empty_as_failure :
    fetchBuildings emptyOkOutcome = [] ∧
      (loadBuildings emptyOkOutcome initialAppState).error =
        some ("Failed to load buildings") ∧
      loadBuildings emptyOkOutcome initialAppState =
        loadBuildings (.thrown ("network down")) initialAppState :=
  ⟨rfl, rfl, rfl⟩

/-- Claim C1 (amended): fuse on two empty input sets returns the empty
fused sequence rather than failing, but the provided client does not
treat a zero-building result as distinct from a hard error: fetchBuildings
collapses every failure to the empty list, and App.loadBuildings maps
every empty list, successful or not, to the error state, leaving the
buildings as they were. -/
theorem fuse_empty_loadBuildings_conflation :
    (∀ (dist : Metric) (thr : ℚ), fuse dist thr [] [] = [])
    ∧ (∀ (o : FetchOutcome BuildingsResponseData) (s : AppState),
        fetchBuildings o = [] →
        (loadBuildings o s).error = some ("Failed to load buildings") ∧
          (loadBuildings o s).buildings = s.buildings)
    ∧ (∀ (o : FetchOutcome BuildingsResponseData) (s : AppState),
        fetchBuildings o ≠ [] →
        (loadBuildings o s).error = none ∧
          (loadBuildings o s).buildings = fetchBuildings o) := by
  refine ⟨fun dist thr => rfl, ?_, ?_⟩
  · intro o s h
    simp [loadBuildings, h]
  · intro o s h
    have hlen : 0 < (fetchBuildings o).length := List.length_pos.mpr h
    simp [loadBuildings, hlen]

/-- Witness for the amended C1 theorem at the empty successful fetch. -/
theorem fuse_empty_loadBuildings_conflation_witness :
    (loadBuildings emptyOkOutcome initialAppState).error =
        some ("Failed to load buildings") ∧
      (loadBuildings emptyOkOutcome initialAppState).buildings =
        initialAppState.buildings :=
  fuse_empty_loadBuildings_conflation.2.1 emptyOkOutcome initialAppState rfl

/-- Claim C2: the serialized Building payload carries exactly the section
3 field names, the serialized per-query payload carries exactly
matching_ids and filter_parsed, every field name the provided consumers
read (the details panel, calculateBounds, queryBuildings) is among those
names, and calculateBounds depends on the buildings only through their
latitude and longitude fields. -/
theorem payload_field_names :
    (∀ b : Building, (serializeBuilding b).map Prod.fst = buildingFieldNames)
    ∧ (∀ (ids : List String) (fp : FilterSpec),
        (serializeQueryResult ids fp).map Prod.fst = queryResultFieldNames)
    ∧ (∀ n ∈ detailsPanelReads, n ∈ buildingFieldNames)
    ∧ (∀ n ∈ calculateBoundsReads, n ∈ buildingFieldNames)
    ∧ (∀ n ∈ queryBuildingsReads, n ∈ queryResultFieldNames)
    ∧ (∀ bs1 bs2 : List Building,
        bs1.map (fun b => (b.latitude, b.longitude)) =
          bs2.map (fun b => (b.latitude, b.longitude)) →
        calculateBounds bs1 = calculateBounds bs2) := by
  refine ⟨fun b => rfl, fun ids fp => rfl, by decide, by decide, by decide, ?_⟩
  intro bs1 bs2 h
  cases bs1 with
  | nil =>
    cases bs2 with
    | nil => rfl
    | cons b2 r2 => simp at h
  | cons b1 r1 =>
    cases bs2 with
    | nil => simp at h
    | cons b2 r2 =>
      simp only [List.map_cons, List.cons.injEq] at h
      obtain ⟨hb, hr⟩ := h
      have hlat1 : b1.latitude = b2.latitude := congrArg Prod.fst hb
      have hlon1 : b1.longitude = b2.longitude := congrArg Prod.snd hb
      have hlat : r1.map (fun b => b.latitude) = r2.map (fun b => b.latitude) := by
        have h2 := congrArg (List.map Prod.fst) hr
        simpa [List.map_map, Function.comp] using h2
      have hlon : r1.map (fun b => b.longitude) = r2.map (fun b => b.longitude) := by
        have h2 := congrArg (List.map Prod.snd) hr
        simpa [List.map_map, Function.comp] using h2
      have e1 := foldlMapCongr min (fun b => b.latitude) r1 r2 b2.latitude hlat
      have e2 := foldlMapCongr max (fun b => b.latitude) r1 r2 b2.latitude hlat
      have e3 := foldlMapCongr min (fun b => b.longitude) r1 r2 b2.longitude hlon
      have e4 := foldlMapCongr max (fun b => b.longitude) r1 r2 b2.longitude hlon
      simp only [calculateBounds]
      rw [hlat1, hlon1, e1, e2, e3, e4]

/-- Witness for C2: two building lists agreeing on latitude and longitude
but nothing else give identical bounds. -/
theorem payload_field_names_witness :
    calculateBounds [exBuilding ("b1") 1] =
      calculateBounds [exBuilding ("b2") 2] :=
  payload_field_names.2.2.2.2.2 [exBuilding ("b1") 1] [exBuilding ("b2") 2] rfl

/-- Claim C3: the height of every fused Building is the derived height of
its footprint, derived height equals max(roof minus ground, MIN_HEIGHT)
when both elevations are present and falls back to MIN_HEIGHT when either
is missing, and every fused height is at least MIN_HEIGHT and strictly
positive. -/
theorem fused_height_clamped :
    (∀ (f : FootprintRecord) (r g : ℚ), f.roof_elevation = some r →
        f.ground_elevation = some g → derivedHeight f = max (r - g) MIN_HEIGHT)
    ∧ (∀ f : FootprintRecord,
        f.roof_elevation = none ∨ f.ground_elevation = none →
        derivedHeight f = MIN_HEIGHT)
    ∧ (∀ (dist : Metric) (thr : ℚ) (fps : List FootprintRecord)
        (as : List AssessmentRecord) (b : Building),
        b ∈ fuse dist thr fps as →
        (∃ f, f ∈ fps ∧ b.height = derivedHeight f) ∧
          MIN_HEIGHT ≤ b.height ∧ 0 < b.height) := by
  have hge : ∀ f : FootprintRecord, MIN_HEIGHT ≤ derivedHeight f := by
    intro f
    unfold derivedHeight
    cases f.roof_elevation <;> cases f.ground_elevation <;>
      simp [le_max_right]
  refine ⟨?_, ?_, ?_⟩
  · intro f r g hr hg
    unfold derivedHeight
    rw [hr, hg]
  · intro f h
    unfold derivedHeight
    rcases h with h | h
    · rw [h]
    · rw [h]
      cases f.roof_elevation <;> rfl
  · intro dist thr fps as b hb
    obtain ⟨f, oa, hf, rfl⟩ := mem_fuseGo dist thr as fps _ b hb
    refine ⟨⟨f, hf, rfl⟩, hge f, ?_⟩
    calc (0 : ℚ) < MIN_HEIGHT := by norm_num [MIN_HEIGHT]
      _ ≤ (mkBuilding f oa).height := hge f

/-- Witness for C3 at a concrete fused building. -/
theorem fused_height_clamped_witness :
    MIN_HEIGHT ≤ (mkBuilding exFootprint none).height ∧
      0 < (mkBuilding exFootprint none).height :=
  (fused_height_clamped.2.2 exMetric 1 [exFootprint] []
      (mkBuilding exFootprint none) (by decide)).2

/-- Claim C4: apply returns exactly the ids of the buildings matching the
filter, in the order of the input sequence (it equals the stable filter
of the sequence followed by id projection, and is a sublist of the id
sequence), and on the five-building example with assessed_value above one
million it returns exactly the two matching ids in original order. -/
theorem applyFilter_stable :
    (∀ (f : FilterSpec) (bs : List Building),
        applyFilter f bs =
          (bs.filter (fun b => matchesFilter f b)).map Building.id
        ∧ (applyFilter f bs).Sublist (bs.map Building.id))
    ∧ applyFilter exampleValueFilter exampleBuildings = ["b2", "b4"] := by
  have key : ∀ (f : FilterSpec) (bs : List Building),
      applyFilter f bs =
        (bs.filter (fun b => matchesFilter f b)).map Building.id := by
    intro f bs
    induction bs with
    | nil => rfl
    | cons b rest ih =>
      by_cases h : matchesFilter f b = true
      · simp [applyFilter, h, List.filter_cons, ih]
      · simp [applyFilter, h, List.filter_cons, ih]
  constructor
  · intro f bs
    refine ⟨key f bs, ?_⟩
    rw [key f bs]
    exact List.Sublist.map _ (List.filter_sublist _)
  · decide

/-- Claim C5: a decoded completion whose attribute is outside the
five-name whitelist yields ParseError.InvalidAttribute, a whitelisted
attribute with an operator outside the four-operator whitelist yields
ParseError.InvalidOperator, every successful parse carries a whitelisted
attribute and operator (no default filter is ever substituted), the
completion with attribute color parses to ParseError.InvalidAttribute,
and the prose-wrapped height completion parses successfully. -/
theorem parseCompletion_whitelists :
    (∀ (raw s : String) (fields : List (String × Json)) (a : String)
        (ov v : Json),
        extractFirstJsonObject raw = some s →
        decodeFlatObject s = some fields →
        fields.lookup ("attribute") = some (Json.str a) →
        fields.lookup ("operator") = some ov →
        fields.lookup ("value") = some v →
        attributeWhitelist.contains a = false →
        parseCompletion raw = .error .InvalidAttribute)
    ∧ (∀ (raw s : String) (fields : List (String × Json)) (a op : String)
        (v : Json),
        extractFirstJsonObject raw = some s →
        decodeFlatObject s = some fields →
        fields.lookup ("attribute") = some (Json.str a) →
        attributeWhitelist.contains a = true →
        fields.lookup ("operator") = some (Json.str op) →
        fields.lookup ("value") = some v →
        operatorWhitelist.contains op = false →
        parseCompletion raw = .error .InvalidOperator)
    ∧ (∀ (raw : String) (spec : FilterSpec), parseCompletion raw = .ok spec →
        attributeWhitelist.contains spec.attribute = true ∧
          operatorWhitelist.contains spec.operator = true)
    ∧ parseCompletion colorRaw = .error .InvalidAttribute
    ∧ parseCompletion proseRaw = .ok ⟨"height", ">", .num 100⟩ := by
  refine ⟨?_, ?_, parseCompletion_ok, by rfl, by rfl⟩
  · intro raw s fields a ov v h1 h2 h3 h4 h5 h6
    simp only [parseCompletion, h1, h2, h3, h4, h5, validateFilter,
      jsonString, h6]
    simp
  · intro raw s fields a op v h1 h2 h3 h4 h5 h6 h7
    simp only [parseCompletion, h1, h2, h3, h5, h6, validateFilter,
      jsonString, h4, h7]
    simp

/-- Witness for C5 at the color completion of the specification. -/
theorem parseCompletion_whitelists_witness :
    parseCompletion colorRaw = .error .InvalidAttribute :=
  parseCompletion_whitelists.1 colorRaw colorRaw
    [("attribute", Json.str ("color")), ("operator", Json.str (">")),
     ("value", Json.num 1)]
    ("color") (Json.str (">")) (Json.num 1)
    rfl rfl rfl rfl rfl rfl

/-- Claim C6: when the containment stage is not decisive, a successful
proximity-fallback match lands on a candidate within the threshold whose
distance is minimal, and among equidistant candidates it is the one of
lowest assessment insertion order; moreover fuse is a pure function, so
two runs on identical input sequences produce identical output. -/
theorem matchFor_tiebreak :
    (∀ (dist : Metric) (thr : ℚ) (f : FootprintRecord)
        (as : List AssessmentRecord) (avail : List Bool) (i : Nat),
        (containCandidates (centroidOf f.polygon) as avail).length ≠ 1 →
        matchFor dist thr f as avail = some i →
        i ∈ proxCandidates dist thr (centroidOf f.polygon) as avail ∧
          ∀ k ∈ proxCandidates dist thr (centroidOf f.polygon) as avail,
            distToAssess dist (centroidOf f.polygon) as i ≤
              distToAssess dist (centroidOf f.polygon) as k ∧
            (distToAssess dist (centroidOf f.polygon) as k =
                distToAssess dist (centroidOf f.polygon) as i → i ≤ k))
    ∧ (∀ (dist : Metric) (thr : ℚ) (fps1 fps2 : List FootprintRecord)
        (as1 as2 : List AssessmentRecord), fps1 = fps2 → as1 = as2 →
        fuse dist thr fps1 as1 = fuse dist thr fps2 as2) := by
  constructor
  · intro dist thr f as avail i hcc hm
    simp only [matchFor] at hm
    rw [if_neg hcc] at hm
    have hpw : (proxCandidates dist thr (centroidOf f.polygon) as
        avail).Pairwise (· < ·) :=
      List.Pairwise.filter _ (List.pairwise_lt_range _)
    exact ⟨selectNearest_mem _ _ _ hm,
      fun k hk => ⟨selectNearest_min _ _ _ hm k hk,
        fun he => selectNearest_least _ _ _ hpw hm k hk he⟩⟩
  · intro dist thr fps1 fps2 as1 as2 h1 h2
    rw [h1, h2]

/-- Witness for C6: two assessments exactly equidistant from the
footprint centroid, the match lands on index 0, the lower insertion
order. -/
theorem matchFor_tiebreak_witness :
    matchFor exMetric 10 exFootprint [exAssessEast, exAssessWest]
        [true, true] = some 0 ∧
      0 ∈ proxCandidates exMetric 10 (centroidOf exFootprint.polygon)
        [exAssessEast, exAssessWest] [true, true] :=
  ⟨by decide,
   (matchFor_tiebreak.1 exMetric 10 exFootprint [exAssessEast, exAssessWest]
      [true, true] 0 (by decide) (by decide)).1⟩

/-- Claim C7: the fused ids are exactly the struct_ids of the
geometry-valid footprints in order, they are unique whenever the input
struct_ids are, and a valid footprint with no assessment candidate within
the threshold still yields a Building carrying its struct_id with
assessed_value 0 and empty address. -/
theorem fuse_ids_and_defaults :
    (∀ (dist : Metric) (thr : ℚ) (fps : List FootprintRecord)
        (as : List AssessmentRecord),
        (fuse dist thr fps as).map Building.id =
          (fps.filter (fun f => validGeometry f)).map FootprintRecord.struct_id)
    ∧ (∀ (dist : Metric) (thr : ℚ) (fps : List FootprintRecord)
        (as : List AssessmentRecord),
        (fps.map FootprintRecord.struct_id).Nodup →
        ((fuse dist thr fps as).map Building.id).Nodup)
    ∧ (∀ (dist : Metric) (thr : ℚ) (fps : List FootprintRecord)
        (as : List AssessmentRecord) (f : FootprintRecord),
        f ∈ fps → validGeometry f = true → noCandidate dist thr f as →
        ∃ b, b ∈ fuse dist thr fps as ∧ b.id = f.struct_id ∧
          b.assessed_value = 0 ∧ b.address = "") := by
  refine ⟨?_, ?_, ?_⟩
  · intro dist thr fps as
    exact fuseGo_map_id dist thr as fps _
  · intro dist thr fps as hnd
    have e : (fuse dist thr fps as).map Building.id =
        (fps.filter (fun f => validGeometry f)).map FootprintRecord.struct_id :=
      fuseGo_map_id dist thr as fps _
    rw [e]
    exact List.Nodup.sublist (List.Sublist.map _ (List.filter_sublist _)) hnd
  · intro dist thr fps as f hf hv hnc
    refine ⟨mkBuilding f none, ?_, rfl, rfl, rfl⟩
    exact fuseGo_unmatched dist thr as f hv
      (matchFor_none_of_noCandidate dist thr f as hnc) fps _ hf

/-- Witness for C7 at a valid footprint with an empty assessment set. -/
theorem fuse_ids_and_defaults_witness :
    ∃ b, b ∈ fuse exMetric 1 [exFootprint] [] ∧
      b.id = exFootprint.struct_id ∧ b.assessed_value = 0 ∧ b.address = "" :=
  fuse_ids_and_defaults.2.2 exMetric 1 [exFootprint] [] exFootprint
    (by decide) (by decide) (by decide)

/-- Claim C8: queryBuildings is total over every fetch outcome, its
result always carries the matching_ids, filter_parsed and error fields,
error is null exactly when the call succeeded, and matching_ids is the
empty array whenever error is non-null. -/
theorem queryBuildings_total_shape :
    ∀ o : FetchOutcome QueryResponseData,
      ((queryBuildings o).error = none ↔ fetchSucceeded o = true)
      ∧ ((queryBuildings o).error ≠ none →
          (queryBuildings o).matching_ids = []) := by
  intro o
  cases o with
  | thrown msg => simp [queryBuildings, fetchSucceeded]
  | got ok status body =>
    cases ok with
    | false => simp [queryBuildings, fetchSucceeded]
    | true =>
      cases body with
      | error msg => simp [queryBuildings, fetchSucceeded]
      | ok d =>
        by_cases he : jsTruthy d.error = true
        · have hne : d.error ≠ none := by
            cases hde : d.error with
            | none => rw [hde] at he; simp [jsTruthy] at he
            | some s => simp
          simp [queryBuildings, fetchSucceeded, he, hne]
        · simp [queryBuildings, fetchSucceeded, he]

/-- Witness for C8 at a thrown network error. -/
theorem queryBuildings_total_shape_witness :
    (queryBuildings (.thrown ("network down"))).matching_ids = [] :=
  (queryBuildings_total_shape (.thrown ("network down"))).2 (by decide)

/-- Counterexample to claim C9 as stated: a successful query whose result
has zero matching ids also passes the empty array to onQueryResult, so
the empty array is not received only on an explicit clear. -/
theorem handleSubmit_empty_on_success :
    (queryBuildings emptySuccess).error = none ∧
      (handleSubmit exPanel emptySuccess).2 = some [] :=
  ⟨rfl, rfl⟩

/-- Claim C9 (amended): when queryBuildings returns a result with a
non-null error, handleSubmit does not invoke onQueryResult and the
highlighted-id state of the caller is unchanged, and the panel records
the error and clears its last result; onQueryResult receives the matching
ids exactly on success, so a successful query with zero matches also
passes the empty array, and handleClear always passes the empty array. -/
theorem handleSubmit_error_preserves :
    (∀ (s : PanelState) (o : FetchOutcome QueryResponseData),
        (queryBuildings o).error ≠ none →
        (handleSubmit s o).2 = none ∧
          ∀ h : List String, appAfterQuery h (handleSubmit s o).2 = h)
    ∧ (∀ (s : PanelState) (o : FetchOutcome QueryResponseData),
        jsTrim s.query ≠ "" → (queryBuildings o).error ≠ none →
        (handleSubmit s o).1.error = (queryBuildings o).error ∧
          (handleSubmit s o).1.lastResult = none)
    ∧ (∀ (s : PanelState) (o : FetchOutcome QueryResponseData),
        jsTrim s.query ≠ "" → (queryBuildings o).error = none →
        (handleSubmit s o).2 = some (queryBuildings o).matching_ids)
    ∧ (∀ s : PanelState, (handleClear s).2 = some [])
    ∧ (∀ (s : PanelState) (o : FetchOutcome QueryResponseData),
        (handleSubmit s o).2 = some [] →
        (queryBuildings o).error = none ∧
          (queryBuildings o).matching_ids = []) := by
  refine ⟨?_, ?_, ?_, fun s => rfl, ?_⟩
  · intro s o he
    by_cases ht : jsTrim s.query = ""
    · simp [handleSubmit, ht, appAfterQuery]
    · cases hqe : (queryBuildings o).error with
      | none => exact absurd hqe he
      | some e => simp [handleSubmit, ht, hqe, appAfterQuery]
  · intro s o ht he
    cases hqe : (queryBuildings o).error with
    | none => exact absurd hqe he
    | some e => simp [handleSubmit, ht, hqe]
  · intro s o ht he
    simp [handleSubmit, ht, he]
  · intro s o h
    by_cases ht : jsTrim s.query = ""
    · simp [handleSubmit, ht] at h
    · cases hqe : (queryBuildings o).error with
      | some e => simp [handleSubmit, ht, hqe] at h
      | none =>
        simp [handleSubmit, ht, hqe] at h
        exact ⟨rfl, h⟩

/-- Witness for the amended C9 theorem at a thrown network error. -/
theorem handleSubmit_error_preserves_witness :
    (handleSubmit exPanel (.thrown ("boom"))).2 = none ∧
      appAfterQuery ["b1"] (handleSubmit exPanel (.thrown ("boom"))).2 =
        ["b1"] := by
  have h := handleSubmit_error_preserves.1 exPanel (.thrown ("boom"))
    (by decide)
  exact ⟨h.1, h.2 ["b1"]⟩

/-- Claim C10: every mesh color is one of the four constants, assigned
with strict precedence selected, then highlighted, then dimmed when any
highlight exists, then default, and with an empty highlight set no
building is ever dimmed. -/
theorem highlight_color_precedence :
    ∀ (sel : Option String) (hl : List String) (bid : String),
      (colorFor sel hl bid = COLOR_SELECTED ∨
        colorFor sel hl bid = COLOR_HIGHLIGHTED ∨
        colorFor sel hl bid = COLOR_DIMMED ∨
        colorFor sel hl bid = COLOR_DEFAULT)
      ∧ (sel = some bid → colorFor sel hl bid = COLOR_SELECTED)
      ∧ (sel ≠ some bid → bid ∈ hl →
          colorFor sel hl bid = COLOR_HIGHLIGHTED)
      ∧ (sel ≠ some bid → bid ∉ hl → hl ≠ [] →
          colorFor sel hl bid = COLOR_DIMMED)
      ∧ (sel ≠ some bid → bid ∉ hl → hl = [] →
          colorFor sel hl bid = COLOR_DEFAULT)
      ∧ (hl = [] → colorFor sel hl bid ≠ COLOR_DIMMED) := by
  intro sel hl bid
  by_cases h1 : sel = some bid
  · simp [colorFor, h1, COLOR_SELECTED, COLOR_HIGHLIGHTED, COLOR_DIMMED,
      COLOR_DEFAULT]
  · by_cases h2 : bid ∈ hl
    · have hne : hl ≠ [] := by
        intro hnil
        rw [hnil] at h2
        exact absurd h2 (List.not_mem_nil bid)
      simp [colorFor, h1, h2, hne, COLOR_SELECTED, COLOR_HIGHLIGHTED,
        COLOR_DIMMED, COLOR_DEFAULT]
    · by_cases h3 : hl = []
      · simp [colorFor, h1, h2, h3, COLOR_SELECTED, COLOR_HIGHLIGHTED,
          COLOR_DIMMED, COLOR_DEFAULT]
      · have hlen : 0 < hl.length := List.length_pos.mpr h3
        simp [colorFor, h1, h2, h3, hlen, COLOR_SELECTED, COLOR_HIGHLIGHTED,
          COLOR_DIMMED, COLOR_DEFAULT]

/-- Witness for C10: a selected building and the empty-highlight case. -/
theorem highlight_color_precedence_witness :
    colorFor (some ("b1")) [] ("b1") = COLOR_SELECTED ∧
      colorFor none [] ("b1") ≠ COLOR_DIMMED :=
  ⟨(highlight_color_precedence (some ("b1")) [] ("b1")).2.1 rfl,
   (highlight_color_precedence none [] ("b1")).2.2.2.2.2 rfl⟩

end Masiv
